import Mathlib

/-!
Verification of the two connection-validator scripts
(`test_apim_connection.py` and `test_model_gateway_connection.py`).

The Python code is shallowly embedded: configurations become structures,
the pure helper methods become Lean functions, and the HTTP-dependent
stages are modelled as functions of an abstract response (status code,
JSON-parsability, parsed model list, body-shape verdict).
-/

namespace FoundrySamples

/-- Python string truthiness for an optional string:
`None` and the empty string are falsy. -/
def strTruthy : Option String → Bool
  | some s => s ≠ ""
  | none => false

/-- Python `str(...)` interpolation of an `Optional[str]`:
`None` renders as the literal text `None` inside an f-string. -/
def pyStrOpt : Option String → String
  | some s => s
  | none => "None"

/-- Python `s.rstrip('/')`: remove every trailing slash character. -/
def rstripSlashes (s : String) : String :=
  ⟨(s.data.reverse.dropWhile (fun c => c = '/')).reverse⟩

/-- Fuel-indexed worker for `pyReplace` (fuel bounds the scan length). -/
def replaceAux (pat rep : List Char) : Nat → List Char → List Char
  | _, [] => []
  | 0, s => s
  | Nat.succ n, c :: rest =>
      if pat.isPrefixOf (c :: rest) then
        rep ++ replaceAux pat rep n (List.drop pat.length (c :: rest))
      else
        c :: replaceAux pat rep n rest

/-- Python `s.replace(pat, rep)`: replace every (leftmost, non-overlapping)
occurrence of `pat` in `s` by `rep`.  Used with the non-empty pattern
`"{deploymentName}"`. -/
def pyReplace (s pat rep : String) : String :=
  ⟨replaceAux pat.data rep.data s.data.length s.data⟩

/-- Whether `pat` occurs as a contiguous substring of the character list. -/
def hasSubstr (pat : List Char) : List Char → Bool
  | [] => pat.isEmpty
  | c :: rest => pat.isPrefixOf (c :: rest) || hasSubstr pat rest

/-- Python `"{deploymentName}" in s`. -/
def containsTemplate (s : String) : Bool :=
  hasSubstr "{deploymentName}".data s.data

/-- A JSON-like value as read from the Bicep parameter file. -/
inductive JValue where
  | null
  | bool (b : Bool)
  | str (s : String)
  | num (n : Int)
  | arr (xs : List JValue)
  | obj (fields : List (String × JValue))

/-- Field lookup in a JSON object (dict keys are unique in Python). -/
def lookupField : List (String × JValue) → String → Option JValue
  | [], _ => none
  | (k2, v) :: rest, k => if k2 = k then some v else lookupField rest k

/-- `extract_parameter_value` (identical in both scripts): if the argument
is a dict containing the key `value`, return `param['value']`; otherwise
return the argument unchanged. -/
def extract_parameter_value (p : JValue) : JValue :=
  match p with
  | .obj fields =>
      match lookupField fields "value" with
      | some v => v
      | none => .obj fields
  | other => other

/-- A Bicep-wrapped parameter: `{ "value": v }`. -/
def wrapParam (v : JValue) : JValue :=
  .obj [("value", v)]

/-- One entry of the `staticModels` array.  Only its top-level `name`
field determines the verdict of the existence check; the nested
`properties.model` data is only echoed in log output. -/
structure StaticModel where
  name : Option String
deriving Repr, DecidableEq

/-- The APIM script's `model_discovery` dict (built when
`listModelsEndpoint` is truthy); a missing entry is embedded as `""`. -/
structure ModelDiscovery where
  listModelsEndpoint : String
  getModelEndpoint : String
  deploymentProvider : String
deriving Repr, DecidableEq

/-- The `authConfig` dict: optional `name` and `format` entries. -/
structure AuthConfig where
  name : Option String
  format : Option String
deriving Repr, DecidableEq

/-- The APIM script's `AuthType` enum (single member `ApiKey`). -/
inductive APIMAuthType where
  | apiKey
deriving Repr, DecidableEq

/-- `ValidationConfig` of `test_apim_connection.py`. -/
structure APIMConfig where
  apim_resource_id : String
  api_name : String
  target_url : String
  connection_name : String
  auth_type : APIMAuthType
  api_key : Option String
  deployment_name : Option String
  deployment_in_path : Bool
  inference_api_version : Option String
  deployment_api_version : Option String
  static_models : List StaticModel
  model_discovery : Option ModelDiscovery
  deployment_provider : Option String
  custom_headers : List (String × String)
  auth_config : Option AuthConfig
deriving Repr, DecidableEq

/-- The ModelGateway script's `AuthType` enum. -/
inductive MGAuthType where
  | apiKey
  | oauth2
deriving Repr, DecidableEq

/-- `ValidationConfig` of `test_model_gateway_connection.py`
(OAuth2 client fields, unused by the verified properties, omitted).
String fields normalised with `or ""` in the source are plain strings
where `""` means "not configured". -/
structure MGConfig where
  target_url : String
  gateway_name : String
  auth_type : MGAuthType
  deployment_in_path : Bool
  inference_api_version : String
  deployment_name : String
  api_key : Option String
  client_secret : Option String
  auth_config : Option AuthConfig
  custom_headers : List (String × String)
  static_models : List StaticModel
  list_models_endpoint : String
  get_model_endpoint : String
  deployment_provider : String
  deployment_api_version : String
deriving Repr, DecidableEq

/-! ## Discovery-method exclusivity (stage-1 check) -/

/-- `has_static` in both scripts: `config.static_models and len(...) > 0`. -/
def APIMConfig.hasStatic (cfg : APIMConfig) : Bool :=
  !cfg.static_models.isEmpty

/-- `has_dynamic` in the APIM script: `config.model_discovery is not None`. -/
def APIMConfig.hasDynamic (cfg : APIMConfig) : Bool :=
  cfg.model_discovery.isSome

/-- `has_static` in the ModelGateway script. -/
def MGConfig.hasStatic (cfg : MGConfig) : Bool :=
  !cfg.static_models.isEmpty

/-- `has_dynamic` in the ModelGateway script: all three dynamic
parameters truthy. -/
def MGConfig.hasDynamic (cfg : MGConfig) : Bool :=
  cfg.list_models_endpoint != "" &&
  cfg.get_model_endpoint != "" &&
  cfg.deployment_provider != ""

/-- `has_partial_dynamic` in the ModelGateway script: at least one
dynamic parameter truthy. -/
def MGConfig.hasPartialDynamic (cfg : MGConfig) : Bool :=
  cfg.list_models_endpoint != "" ||
  cfg.get_model_endpoint != "" ||
  cfg.deployment_provider != ""

/-- `APIMConnectionValidator._validate_discovery_method_exclusivity`. -/
def APIM.validate_discovery_method_exclusivity (cfg : APIMConfig) : Bool :=
  let has_static := cfg.hasStatic
  let has_dynamic := cfg.hasDynamic
  if has_static && has_dynamic then false
  else if !has_static && !has_dynamic then false
  else true

/-- `ModelGatewayValidator._validate_discovery_method_exclusivity`. -/
def MG.validate_discovery_method_exclusivity (cfg : MGConfig) : Bool :=
  let has_static := cfg.hasStatic
  let has_dynamic := cfg.hasDynamic
  let has_partial_dynamic := cfg.hasPartialDynamic
  if has_static && has_dynamic then false
  else if has_partial_dynamic && !has_dynamic then false
  else if !has_static && !has_dynamic && !has_partial_dynamic then false
  else true

/-! ## Chat-completions URL and request body -/

/-- The `?api-version=` query suffix the APIM script appends when
`config.inference_api_version` is truthy. -/
def APIMConfig.inferenceQuery (cfg : APIMConfig) : String :=
  match cfg.inference_api_version with
  | some v => if v = "" then "" else "?api-version=" ++ v
  | none => ""

/-- The `?api-version=` query suffix the APIM script appends to the
discovery URLs when `config.deployment_api_version` is truthy. -/
def APIMConfig.deploymentQuery (cfg : APIMConfig) : String :=
  match cfg.deployment_api_version with
  | some v => if v = "" then "" else "?api-version=" ++ v
  | none => ""

/-- Query suffix for the ModelGateway chat URL
(`config.inference_api_version` truthy). -/
def MGConfig.inferenceQuery (cfg : MGConfig) : String :=
  if cfg.inference_api_version != "" then "?api-version=" ++ cfg.inference_api_version
  else ""

/-- Query suffix for the ModelGateway discovery URLs
(`config.deployment_api_version` truthy). -/
def MGConfig.deploymentQuery (cfg : MGConfig) : String :=
  if cfg.deployment_api_version != "" then "?api-version=" ++ cfg.deployment_api_version
  else ""

/-- `APIMConnectionValidator._build_chat_completions_url`. -/
def APIM.build_chat_completions_url (cfg : APIMConfig) : String :=
  let path :=
    if cfg.deployment_in_path then
      "/deployments/" ++ pyStrOpt cfg.deployment_name ++ "/chat/completions"
    else
      "/chat/completions"
  let url := cfg.target_url ++ path
  match cfg.inference_api_version with
  | some v => if v = "" then url else url ++ ("?api-version=" ++ v)
  | none => url

/-- `ModelGatewayValidator._build_chat_completions_url`
(note the `rstrip('/')` on the target URL, absent from the APIM script). -/
def MG.build_chat_completions_url (cfg : MGConfig) : String :=
  let base_url := rstripSlashes cfg.target_url
  let url :=
    if cfg.deployment_in_path then
      base_url ++ "/deployments/" ++ cfg.deployment_name ++ "/chat/completions"
    else
      base_url ++ "/chat/completions"
  if cfg.inference_api_version != "" then url ++ ("?api-version=" ++ cfg.inference_api_version)
  else url

/-- One entry of the `messages` array of the chat request body. -/
structure ChatMessage where
  role : String
  content : String
deriving Repr, DecidableEq

/-- Chat-completions request body.  `model = none` means the body has no
`model` key; `model = some v` means the key is present with the Python
value `v` (itself optional, mirroring `Optional[str]`). -/
structure ChatRequestBody where
  messages : List ChatMessage
  model : Option (Option String)
deriving Repr, DecidableEq

/-- Fixed test-message text of the APIM script. -/
def apimTestMessage : String :=
  "Hello! This is a test message from the APIM connection validation script. Please respond briefly."

/-- Fixed test-message text of the ModelGateway script. -/
def mgTestMessage : String :=
  "Hello! This is a test message from the ModelGateway validation script. Please respond with a simple confirmation that you received this message."

/-- `APIMConnectionValidator._build_chat_request_body`. -/
def APIM.build_chat_request_body (cfg : APIMConfig) : ChatRequestBody :=
  { messages := [{ role := "user", content := apimTestMessage }]
    model := if cfg.deployment_in_path then none else some cfg.deployment_name }

/-- `ModelGatewayValidator._build_request_body`. -/
def MG.build_request_body (cfg : MGConfig) : ChatRequestBody :=
  { messages := [{ role := "user", content := mgTestMessage }]
    model := if cfg.deployment_in_path then none else some (some cfg.deployment_name) }

/-! ## HTTP request headers -/

/-- Python dict assignment `d[k] = v` on an insertion-ordered dict with
unique keys: replace the value of an existing key, else append. -/
def setHeader : List (String × String) → String → String → List (String × String)
  | [], k, v => [(k, v)]
  | (k2, v2) :: rest, k, v =>
      if k2 = k then (k2, v) :: rest else (k2, v2) :: setHeader rest k v

/-- Python dict lookup `d.get(k)`. -/
def getHeader (hs : List (String × String)) (k : String) : Option String :=
  (hs.find? (fun p => p.1 = k)).map Prod.snd

/-- The value that a sequence of dict assignments (iterating the list
left to right) leaves at key `k`: the last matching entry wins. -/
def lookupLast : List (String × String) → String → Option String
  | [], _ => none
  | (k2, v) :: rest, k =>
      match lookupLast rest k with
      | some v2 => some v2
      | none => if k2 = k then some v else none

/-- Python `headers.update(custom)`: assign each custom entry in order. -/
def updateHeaders (hs : List (String × String)) (custom : List (String × String)) :
    List (String × String) :=
  custom.foldl (fun acc kv => setHeader acc kv.1 kv.2) hs

/-- Headers the APIM script builds before `headers.update(custom_headers)`:
Content-Type plus the authentication header.  The custom auth header name
is `auth_config.get('name') or 'api_key'` (empty string falls back). -/
def APIM.base_headers (cfg : APIMConfig) : List (String × String) :=
  let headers := [("Content-Type", "application/json")]
  match cfg.auth_type with
  | .apiKey =>
      match cfg.auth_config with
      | some ac =>
          let auth_name :=
            match ac.name with
            | some s => if s = "" then "api_key" else s
            | none => "api_key"
          let auth_format := ac.format.getD "{api_key}"
          setHeader headers auth_name (pyReplace auth_format "{api_key}" (cfg.api_key.getD ""))
      | none => setHeader headers "api-key" (cfg.api_key.getD "")

/-- `APIMConnectionValidator.build_request_headers`. -/
def APIM.build_request_headers (cfg : APIMConfig) : List (String × String) :=
  updateHeaders (APIM.base_headers cfg) cfg.custom_headers

/-- Headers the ModelGateway script builds before the custom update.
Here the custom auth header name is `auth_config.get('name', 'api-key')`
(default only when the key is absent). -/
def MG.base_headers (cfg : MGConfig) (access_token : Option String) :
    List (String × String) :=
  let headers := [("Content-Type", "application/json")]
  match cfg.auth_type with
  | .apiKey =>
      match cfg.auth_config with
      | some ac =>
          let auth_name := ac.name.getD "api-key"
          let auth_format := ac.format.getD "{api_key}"
          setHeader headers auth_name (pyReplace auth_format "{api_key}" (cfg.api_key.getD ""))
      | none => setHeader headers "api-key" (cfg.api_key.getD "")
  | .oauth2 =>
      match access_token with
      | some tok => setHeader headers "Authorization" ("Bearer " ++ tok)
      | none => headers

/-- `ModelGatewayValidator.build_request_headers`. -/
def MG.build_request_headers (cfg : MGConfig) (access_token : Option String) :
    List (String × String) :=
  updateHeaders (MG.base_headers cfg access_token) cfg.custom_headers

/-! ## HTTP session construction -/

/-- A `urllib3` `Retry` strategy as configured in the source. -/
structure RetryStrategy where
  total : Nat
  backoff_factor : Nat
  status_forcelist : List Nat
deriving Repr, DecidableEq

/-- The observable configuration of a `requests.Session` as set up by a
validator: the custom retry adapter mounted on it (if any), the mount
points, and the `timeout` attribute assigned on the session object. -/
structure SessionConfig where
  retry : Option RetryStrategy
  mounts : List String
  timeout_attr : Option Nat
deriving Repr, DecidableEq

/-- `APIMConnectionValidator._create_http_session`: a session with a
`Retry(total=3, backoff_factor=1, status_forcelist=[429,500,502,503,504])`
adapter mounted for both schemes. -/
def APIM.create_http_session : SessionConfig :=
  { retry := some { total := 3, backoff_factor := 1
                    status_forcelist := [429, 500, 502, 503, 504] }
    mounts := ["http://", "https://"]
    timeout_attr := none }

/-- `ModelGatewayValidator.__init__`: `requests.Session()` with only
`session.timeout = 30` set — no retry adapter is created or mounted. -/
def MG.init_session : SessionConfig :=
  { retry := none
    mounts := []
    timeout_attr := some 30 }

/-! ## Chat-completions smoke test: status dispatch -/

/-- Outcome of the HTTP POST to the chat-completions endpoint. -/
inductive HttpOutcome where
  | status (code : Nat)
  | timeout
  | connectionError
deriving Repr, DecidableEq

/-- Which handler the chat-completions stage dispatches to. -/
inductive ChatHandler where
  | success
  | unauthorized
  | notFound
  | badRequest
  | otherStatus
  | timeoutMessage
  | connectionMessage
deriving Repr, DecidableEq

/-- `APIMConnectionValidator.validate_chat_completions`, abstracted over
the HTTP outcome.  The stage first requires a truthy deployment name
(`none` handler: no request was made); `_handle_chat_success_response`
always returns `True` and every error handler returns `False`. -/
def APIM.validate_chat_completions (cfg : APIMConfig) (o : HttpOutcome) :
    Bool × Option ChatHandler :=
  if !strTruthy cfg.deployment_name then (false, none)
  else
    match o with
    | .status c =>
        if c = 200 then (true, some ChatHandler.success)
        else if c = 401 then (false, some ChatHandler.unauthorized)
        else if c = 404 then (false, some ChatHandler.notFound)
        else if c = 400 then (false, some ChatHandler.badRequest)
        else (false, some ChatHandler.otherStatus)
    | .timeout => (false, some ChatHandler.timeoutMessage)
    | .connectionError => (false, some ChatHandler.connectionMessage)

/-- `ModelGatewayValidator.validate_chat_completions`, abstracted over the
HTTP outcome (branch order in the source: 200, 404, 401, 400, other). -/
def MG.validate_chat_completions (_cfg : MGConfig) (o : HttpOutcome) :
    Bool × ChatHandler :=
  match o with
  | .status c =>
      if c = 200 then (true, ChatHandler.success)
      else if c = 404 then (false, ChatHandler.notFound)
      else if c = 401 then (false, ChatHandler.unauthorized)
      else if c = 400 then (false, ChatHandler.badRequest)
      else (false, ChatHandler.otherStatus)
  | .timeout => (false, ChatHandler.timeoutMessage)
  | .connectionError => (false, ChatHandler.connectionMessage)

/-! ## Dynamic discovery: probed URLs -/

/-- Abstraction of the response to the list-models GET: HTTP status,
whether the body parses as JSON, and the provider-specific parse of the
model names (`_parse_models_list` output / the `value` or `data` list). -/
structure ListModelsResponse where
  status : Nat
  isJson : Bool
  models : List String
deriving Repr, DecidableEq

/-- Abstraction of the response to the get-model GET: HTTP status,
JSON-parsability, and the verdict of the provider-format checks on the
parsed body (the `properties.model` / `id` shape analysis). -/
structure GetModelResponse where
  status : Nat
  isJson : Bool
  bodyOk : Bool
deriving Repr, DecidableEq

/-- `APIMConnectionValidator._test_get_model_endpoint`: returns the
verdict and the list of URLs it probed. -/
def APIM.test_get_model_endpoint (cfg : APIMConfig) (md : ModelDiscovery)
    (available_models : List String) (getResp : GetModelResponse) :
    Bool × List String :=
  match cfg.deployment_name with
  | none => (true, [])
  | some name =>
      if name = "" then (true, [])
      else if !available_models.contains name then (false, [])
      else if !containsTemplate md.getModelEndpoint then (false, [])
      else
        let get_url := cfg.target_url ++
          pyReplace md.getModelEndpoint "{deploymentName}" name ++
          cfg.deploymentQuery
        if getResp.status = 401 then (false, [get_url])
        else if getResp.status ≠ 200 then (false, [get_url])
        else if !getResp.isJson then (false, [get_url])
        else (getResp.bodyOk, [get_url])

/-- `APIMConnectionValidator._validate_dynamic_discovery`: returns the
verdict and the list of URLs it probed, in order. -/
def APIM.validate_dynamic_discovery (cfg : APIMConfig)
    (listResp : ListModelsResponse) (getResp : GetModelResponse) :
    Bool × List String :=
  match cfg.model_discovery with
  | none => (false, [])
  | some md =>
      if md.listModelsEndpoint = "" then (false, [])
      else if md.getModelEndpoint = "" then (false, [])
      else if !containsTemplate md.getModelEndpoint then (false, [])
      else
        let list_url := cfg.target_url ++ md.listModelsEndpoint ++ cfg.deploymentQuery
        if listResp.status = 401 then (false, [list_url])
        else if listResp.status ≠ 200 then (false, [list_url])
        else if !listResp.isJson then (false, [list_url])
        else if listResp.models.isEmpty then (false, [list_url])
        else if strTruthy cfg.deployment_name then
          let r := APIM.test_get_model_endpoint cfg md listResp.models getResp
          (r.1, list_url :: r.2)
        else (true, [list_url])

/-- `ModelGatewayValidator._test_list_models_endpoint`.  A 200 response
that is not valid JSON only prints a warning and the test still passes. -/
def MG.test_list_models_endpoint (cfg : MGConfig)
    (listResp : ListModelsResponse) (base_url : String) : Bool × List String :=
  let list_url := base_url ++ cfg.list_models_endpoint ++ cfg.deploymentQuery
  if listResp.status = 401 then (false, [list_url])
  else if listResp.status ≠ 200 then (false, [list_url])
  else if !listResp.isJson then (true, [list_url])
  else if listResp.models.isEmpty then (false, [list_url])
  else (true, [list_url])

/-- `ModelGatewayValidator._test_get_model_endpoint`.  A 200 response
that is not valid JSON only prints a warning and the test still passes. -/
def MG.test_get_model_endpoint (cfg : MGConfig)
    (getResp : GetModelResponse) (base_url : String) : Bool × List String :=
  if !containsTemplate cfg.get_model_endpoint then (false, [])
  else
    let get_url := base_url ++
      pyReplace cfg.get_model_endpoint "{deploymentName}" cfg.deployment_name ++
      cfg.deploymentQuery
    if getResp.status = 401 then (false, [get_url])
    else if getResp.status ≠ 200 then (false, [get_url])
    else if !getResp.isJson then (true, [get_url])
    else (getResp.bodyOk, [get_url])

/-- `ModelGatewayValidator.validate_dynamic_discovery`: skipped entirely
unless all three dynamic parameters are configured; otherwise the
list-models test runs first and the get-model test only after it passes.
The target URL is first stripped of trailing slashes. -/
def MG.validate_dynamic_discovery (cfg : MGConfig)
    (listResp : ListModelsResponse) (getResp : GetModelResponse) :
    Bool × List String :=
  if !cfg.hasDynamic then (true, [])
  else
    let base_url := rstripSlashes cfg.target_url
    let r1 := MG.test_list_models_endpoint cfg listResp base_url
    if !r1.1 then (false, r1.2)
    else
      let r2 := MG.test_get_model_endpoint cfg getResp base_url
      (r2.1, r1.2 ++ r2.2)

/-! ## Static model existence (stage 3) -/

/-- `APIMConnectionValidator._validate_static_model_exists`: the verdict,
plus the deployment names listed to the user when the lookup fails
(Python `==` also equates two `None`s, hence the `Option` comparison). -/
def APIM.validate_static_model_exists (cfg : APIMConfig) : Bool × List String :=
  if cfg.static_models.isEmpty then (false, [])
  else if cfg.static_models.any (fun m => m.name == cfg.deployment_name) then
    (true, [])
  else
    (false, cfg.static_models.map (fun m => m.name.getD "Unknown"))

/-- `ModelGatewayValidator._validate_static_model_exists`: the verdict,
plus the deployment names listed when the lookup fails. -/
def MG.validate_static_model_exists (cfg : MGConfig) : Bool × List String :=
  if cfg.static_models.any (fun m => m.name == some cfg.deployment_name) then
    (true, [])
  else
    (false, cfg.static_models.map (fun m => m.name.getD "Unknown"))

/-! ## Orchestrators -/

/-- The four validation stages shared by both scripts. -/
inductive Stage where
  | params
  | discovery
  | model
  | chat
deriving Repr, DecidableEq

/-- `APIMConnectionValidator.run_validation`, abstracted over the verdict
`r` of each stage: stages run in the fixed order and the run stops at the
first failure.  Returns the overall verdict and the executed stages. -/
def APIM.run_validation (r : Stage → Bool) : Bool × List Stage :=
  if !r Stage.params then (false, [Stage.params])
  else if !r Stage.discovery then (false, [Stage.params, Stage.discovery])
  else if !r Stage.model then
    (false, [Stage.params, Stage.discovery, Stage.model])
  else if !r Stage.chat then
    (false, [Stage.params, Stage.discovery, Stage.model, Stage.chat])
  else (true, [Stage.params, Stage.discovery, Stage.model, Stage.chat])

/-- `ModelGatewayValidator.validate_connection`: first
`validate_auth_config` (no stage runs if it fails), then the same
four-stage loop with early exit on the first failure. -/
def MG.validate_connection (auth_valid : Bool) (r : Stage → Bool) :
    Bool × List Stage :=
  if !auth_valid then (false, [])
  else if !r Stage.params then (false, [Stage.params])
  else if !r Stage.discovery then (false, [Stage.params, Stage.discovery])
  else if !r Stage.model then
    (false, [Stage.params, Stage.discovery, Stage.model])
  else if !r Stage.chat then
    (false, [Stage.params, Stage.discovery, Stage.model, Stage.chat])
  else (true, [Stage.params, Stage.discovery, Stage.model, Stage.chat])

/-! ## The retry setup the spec describes -/

/-- The session setup the spec attributes to both validators: an
exponential-backoff retry adapter (3 retries, backoff factor 1, retried
statuses 429/500/502/503/504) mounted for both http and https. -/
def claimedRetrySetup (s : SessionConfig) : Prop :=
  s.retry = some { total := 3, backoff_factor := 1
                   status_forcelist := [429, 500, 502, 503, 504] } ∧
  s.mounts = ["http://", "https://"]

/-! ## Concrete sample configurations -/

/-- A well-formed static-models APIM configuration. -/
def apimSampleConfig : APIMConfig :=
  { apim_resource_id := "/subscriptions/s/resourceGroups/rg/providers/Microsoft.ApiManagement/service/apim"
    api_name := "myapi"
    target_url := "https://gw.example.com"
    connection_name := "conn"
    auth_type := APIMAuthType.apiKey
    api_key := some "k"
    deployment_name := some "gpt-4o"
    deployment_in_path := false
    inference_api_version := some "2024-02-01"
    deployment_api_version := none
    static_models := [{ name := some "gpt-4o" }]
    model_discovery := none
    deployment_provider := none
    custom_headers := [("x-extra", "1")]
    auth_config := none }

/-- A well-formed static-models ModelGateway configuration agreeing with
`apimSampleConfig` on the chat-request inputs. -/
def mgSampleConfig : MGConfig :=
  { target_url := "https://gw.example.com"
    gateway_name := "gw"
    auth_type := MGAuthType.apiKey
    deployment_in_path := false
    inference_api_version := "2024-02-01"
    deployment_name := "gpt-4o"
    api_key := some "k"
    client_secret := none
    auth_config := none
    custom_headers := [("x-extra", "1")]
    static_models := [{ name := some "gpt-4o" }]
    list_models_endpoint := ""
    get_model_endpoint := ""
    deployment_provider := ""
    deployment_api_version := "" }

/-- A ModelGateway configuration with one static model together with an
incomplete dynamic configuration (only `listModelsEndpoint` is set). -/
def mgStaticPlusPartialConfig : MGConfig :=
  { mgSampleConfig with list_models_endpoint := "/models" }

/-- The dynamic-discovery dict of `apimDynConfig`. -/
def apimDynDiscovery : ModelDiscovery :=
  { listModelsEndpoint := "/deployments"
    getModelEndpoint := "/deployments/{deploymentName}"
    deploymentProvider := "AzureOpenAI" }

/-- A dynamic-discovery APIM configuration. -/
def apimDynConfig : APIMConfig :=
  { apimSampleConfig with
      target_url := "https://apim.example.com/openai"
      static_models := []
      model_discovery := some apimDynDiscovery
      deployment_provider := some "AzureOpenAI"
      deployment_api_version := some "2023-05-01"
      custom_headers := [] }

/-- A dynamic-discovery ModelGateway configuration whose target URL ends
in a slash. -/
def mgDynSlashConfig : MGConfig :=
  { mgSampleConfig with
      target_url := "https://gw.example.com/"
      static_models := []
      list_models_endpoint := "/models"
      get_model_endpoint := "/models/{deploymentName}"
      deployment_provider := "OpenAI"
      deployment_api_version := "" }

/-- An APIM configuration whose target URL ends in a slash. -/
def apimSlashConfig : APIMConfig :=
  { apimSampleConfig with target_url := "https://gw.example.com/" }

/-- A ModelGateway configuration with the same slash-terminated target
URL, deployment name, flag and API version as `apimSlashConfig`. -/
def mgSlashConfig : MGConfig :=
  { mgSampleConfig with target_url := "https://gw.example.com/" }

/-- Sample stage verdicts: the discovery stage fails, the rest succeed. -/
def stageResultsSample : Stage → Bool
  | Stage.discovery => false
  | _ => true

/-! # Theorems -/

/-! ## Header-map lemmas -/

theorem getHeader_setHeader_same (hs : List (String × String)) (k v : String) :
    getHeader (setHeader hs k v) k = some v := by
  induction hs with
  | nil => simp [setHeader, getHeader]
  | cons p rest ih =>
      obtain ⟨k2, v2⟩ := p
      by_cases h : k2 = k
      · simp [setHeader, h, getHeader, List.find?]
      · simpa [setHeader, h, getHeader, List.find?] using ih

theorem getHeader_setHeader_other (hs : List (String × String)) (k v k2 : String)
    (h : k2 ≠ k) : getHeader (setHeader hs k v) k2 = getHeader hs k2 := by
  induction hs with
  | nil => simp [setHeader, getHeader, List.find?, Ne.symm h]
  | cons p rest ih =>
      obtain ⟨k3, v3⟩ := p
      by_cases h3 : k3 = k
      · subst h3
        simp [setHeader, getHeader, List.find?, Ne.symm h]
      · by_cases h4 : k3 = k2
        · subst h4
          simp [setHeader, h3, getHeader, List.find?]
        · simpa [setHeader, h3, getHeader, List.find?, h4] using ih

theorem getHeader_updateHeaders (custom : List (String × String))
    (hs : List (String × String)) (k : String) :
    getHeader (updateHeaders hs custom) k =
      match lookupLast custom k with
      | some v => some v
      | none => getHeader hs k := by
  induction custom generalizing hs with
  | nil => simp [updateHeaders, lookupLast]
  | cons p rest ih =>
      obtain ⟨k2, v2⟩ := p
      have hstep : updateHeaders hs ((k2, v2) :: rest) =
          updateHeaders (setHeader hs k2 v2) rest := rfl
      rw [hstep, ih]
      cases hl : lookupLast rest k with
      | some v3 => simp [lookupLast, hl]
      | none =>
          by_cases hk : k2 = k
          · subst hk
            simp [lookupLast, hl, getHeader_setHeader_same]
          · simp [lookupLast, hl, hk, getHeader_setHeader_other hs k2 v2 k (Ne.symm hk)]

/-! ## C9: extract_parameter_value -/

/-- C9: `extract_parameter_value` returns `param['value']` for every dict
containing the key `value`, is the identity on every other input (dicts
without that key and all non-dict values), and unwraps a Bicep-wrapped
parameter exactly one level. -/
theorem extract_parameter_value_spec :
    (∀ (fields : List (String × JValue)) (v : JValue),
        lookupField fields "value" = some v →
        extract_parameter_value (JValue.obj fields) = v) ∧
    (∀ fields : List (String × JValue),
        lookupField fields "value" = none →
        extract_parameter_value (JValue.obj fields) = JValue.obj fields) ∧
    extract_parameter_value JValue.null = JValue.null ∧
    (∀ b, extract_parameter_value (JValue.bool b) = JValue.bool b) ∧
    (∀ s, extract_parameter_value (JValue.str s) = JValue.str s) ∧
    (∀ n, extract_parameter_value (JValue.num n) = JValue.num n) ∧
    (∀ xs, extract_parameter_value (JValue.arr xs) = JValue.arr xs) ∧
    (∀ v, extract_parameter_value (wrapParam v) = v) := by
  refine ⟨?_, ?_, rfl, fun b => rfl, fun s => rfl, fun n => rfl, fun xs => rfl,
    fun v => ?_⟩
  · intro fields v h
    simp [extract_parameter_value, h]
  · intro fields h
    simp [extract_parameter_value, h]
  · simp [wrapParam, extract_parameter_value, lookupField]

/-- Witness for C9 at concrete inputs. -/
theorem extract_parameter_value_spec_witness :
    extract_parameter_value (JValue.obj [("value", JValue.num 7)]) = JValue.num 7 ∧
    extract_parameter_value (JValue.obj [("x", JValue.num 1)]) =
      JValue.obj [("x", JValue.num 1)] :=
  ⟨extract_parameter_value_spec.1 [("value", JValue.num 7)] (JValue.num 7)
      (by simp [lookupField]),
   extract_parameter_value_spec.2.1 [("x", JValue.num 1)] (by simp [lookupField])⟩

/-! ## C2: discovery-method exclusivity -/

/-- C2 counterexample: a ModelGateway configuration where exactly one
discovery method (the static list) is configured — the dynamic
configuration is incomplete, hence not configured — and yet
`_validate_discovery_method_exclusivity` fails. -/
theorem discovery_exclusivity_counterexample :
    mgStaticPlusPartialConfig.hasStatic = true ∧
    mgStaticPlusPartialConfig.hasDynamic = false ∧
    MG.validate_discovery_method_exclusivity mgStaticPlusPartialConfig = false := by
  decide

/-- C2 amended: the APIM check passes iff exactly one of static models /
dynamic discovery is configured; the ModelGateway check additionally
fails whenever some but not all of the three dynamic parameters are set,
even if a static list makes exactly one complete method configured. -/
theorem discovery_exclusivity_amended :
    (∀ cfg : APIMConfig,
        APIM.validate_discovery_method_exclusivity cfg =
          (cfg.hasStatic != cfg.hasDynamic)) ∧
    (∀ cfg : MGConfig,
        MG.validate_discovery_method_exclusivity cfg =
          ((cfg.hasStatic != cfg.hasDynamic) &&
            (!cfg.hasPartialDynamic || cfg.hasDynamic))) := by
  constructor
  · intro cfg
    cases h1 : cfg.hasStatic <;> cases h2 : cfg.hasDynamic <;>
      simp [APIM.validate_discovery_method_exclusivity, h1, h2]
  · intro cfg
    cases h1 : cfg.hasStatic <;> cases h2 : cfg.hasDynamic <;>
      cases h3 : cfg.hasPartialDynamic <;>
        simp [MG.validate_discovery_method_exclusivity, h1, h2, h3]

/-! ## C5: HTTP session retry configuration -/

/-- C5 counterexample: the ModelGateway validator's session has no retry
adapter at all, so the claimed retry setup does not hold for it. -/
theorem session_retry_counterexample : ¬ claimedRetrySetup MG.init_session := by
  simp [claimedRetrySetup, MG.init_session]

/-- C5 amended: only the APIM validator configures the exponential-backoff
retry adapter (3 retries, backoff factor 1, statuses 429/500/502/503/504,
mounted for http and https); the ModelGateway validator uses a plain
session with no retry adapter and only a 30-second timeout attribute. -/
theorem session_retry_amended :
    claimedRetrySetup APIM.create_http_session ∧
    MG.init_session.retry = none ∧
    MG.init_session.mounts = [] ∧
    MG.init_session.timeout_attr = some 30 := by
  exact ⟨⟨rfl, rfl⟩, rfl, rfl, rfl⟩

/-! ## C3: deployment placement in the chat request -/

/-- C3: the deployment name appears in exactly one place.  With
`deployment_in_path = true` the URL path is
`/deployments/<name>/chat/completions` and the body has no `model` key;
with `deployment_in_path = false` the path is `/chat/completions` and the
body's `model` key carries the deployment name.  The API-version query is
appended exactly when configured (ModelGateway builds on the
slash-stripped target URL). -/
theorem chat_request_deployment_placement :
    (∀ cfg : APIMConfig,
        APIM.build_chat_completions_url cfg =
          cfg.target_url ++
            (if cfg.deployment_in_path then
              "/deployments/" ++ pyStrOpt cfg.deployment_name ++ "/chat/completions"
            else "/chat/completions") ++ cfg.inferenceQuery ∧
        (APIM.build_chat_request_body cfg).model =
          (if cfg.deployment_in_path then none else some cfg.deployment_name)) ∧
    (∀ cfg : MGConfig,
        MG.build_chat_completions_url cfg =
          rstripSlashes cfg.target_url ++
            (if cfg.deployment_in_path then
              "/deployments/" ++ cfg.deployment_name ++ "/chat/completions"
            else "/chat/completions") ++ cfg.inferenceQuery ∧
        (MG.build_request_body cfg).model =
          (if cfg.deployment_in_path then none else some (some cfg.deployment_name))) := by
  constructor
  · intro cfg
    constructor
    · cases hv : cfg.inference_api_version with
      | none =>
          cases hp : cfg.deployment_in_path <;>
            simp [APIM.build_chat_completions_url, APIMConfig.inferenceQuery, hv, hp,
              String.append_assoc]
      | some v =>
          by_cases hv0 : v = "" <;>
            cases hp : cfg.deployment_in_path <;>
              simp [APIM.build_chat_completions_url, APIMConfig.inferenceQuery, hv, hv0,
                hp, String.append_assoc]
    · cases hp : cfg.deployment_in_path <;> simp [APIM.build_chat_request_body, hp]
  · intro cfg
    constructor
    · by_cases hv : cfg.inference_api_version = "" <;>
        cases hp : cfg.deployment_in_path <;>
          simp [MG.build_chat_completions_url, MGConfig.inferenceQuery, hv, hp,
            String.append_assoc]
    · cases hp : cfg.deployment_in_path <;> simp [MG.build_request_body, hp]

/-! ## C10: custom headers merged last -/

/-- C10: `build_request_headers` merges the configured custom headers
last — for a key assigned by `custom_headers` the result takes the custom
value (overriding the Content-Type default and the authentication header
on collision); for any other key the default/authentication value from
the pre-update headers is kept.  Holds for both validators. -/
theorem request_headers_custom_override :
    (∀ (cfg : APIMConfig) (k : String),
        getHeader (APIM.build_request_headers cfg) k =
          match lookupLast cfg.custom_headers k with
          | some v => some v
          | none => getHeader (APIM.base_headers cfg) k) ∧
    (∀ (cfg : MGConfig) (access_token : Option String) (k : String),
        getHeader (MG.build_request_headers cfg access_token) k =
          match lookupLast cfg.custom_headers k with
          | some v => some v
          | none => getHeader (MG.base_headers cfg access_token) k) :=
  ⟨fun cfg k => getHeader_updateHeaders cfg.custom_headers (APIM.base_headers cfg) k,
   fun cfg tok k => getHeader_updateHeaders cfg.custom_headers (MG.base_headers cfg tok) k⟩

/-! ## C4: chat-completions status dispatch -/

/-- C4: once the chat request is made, the stage succeeds iff the
response status is 200; 401, 404 and 400 dispatch to their dedicated
handlers; every other status, a timeout, or a connection error yields
failure.  (The APIM stage only issues the request when a deployment name
is configured.) -/
theorem chat_completions_status_dispatch :
    (∀ (cfg : APIMConfig) (o : HttpOutcome),
        strTruthy cfg.deployment_name = true →
        (((APIM.validate_chat_completions cfg o).1 = true ↔
            o = HttpOutcome.status 200) ∧
         (APIM.validate_chat_completions cfg (HttpOutcome.status 401)).2 =
            some ChatHandler.unauthorized ∧
         (APIM.validate_chat_completions cfg (HttpOutcome.status 404)).2 =
            some ChatHandler.notFound ∧
         (APIM.validate_chat_completions cfg (HttpOutcome.status 400)).2 =
            some ChatHandler.badRequest ∧
         (APIM.validate_chat_completions cfg HttpOutcome.timeout).1 = false ∧
         (APIM.validate_chat_completions cfg HttpOutcome.connectionError).1 = false)) ∧
    (∀ (cfg : MGConfig) (o : HttpOutcome),
        ((MG.validate_chat_completions cfg o).1 = true ↔
            o = HttpOutcome.status 200) ∧
        (MG.validate_chat_completions cfg (HttpOutcome.status 401)).2 =
            ChatHandler.unauthorized ∧
        (MG.validate_chat_completions cfg (HttpOutcome.status 404)).2 =
            ChatHandler.notFound ∧
        (MG.validate_chat_completions cfg (HttpOutcome.status 400)).2 =
            ChatHandler.badRequest ∧
        (MG.validate_chat_completions cfg HttpOutcome.timeout).1 = false ∧
        (MG.validate_chat_completions cfg HttpOutcome.connectionError).1 = false) := by
  constructor
  · intro cfg o h
    refine ⟨?_, ?_, ?_, ?_, ?_, ?_⟩
    · cases o with
      | status c =>
          by_cases h200 : c = 200
          · subst h200
            simp [APIM.validate_chat_completions, h]
          · rcases Nat.lt_trichotomy c 200 with hlt | heq | hgt
            · simp [APIM.validate_chat_completions, h, h200]
              split_ifs <;> simp_all
            · exact absurd heq h200
            · simp [APIM.validate_chat_completions, h, h200]
              split_ifs <;> simp_all
      | timeout => simp [APIM.validate_chat_completions, h]
      | connectionError => simp [APIM.validate_chat_completions, h]
    · simp [APIM.validate_chat_completions, h]
    · simp [APIM.validate_chat_completions, h]
    · simp [APIM.validate_chat_completions, h]
    · simp [APIM.validate_chat_completions, h]
    · simp [APIM.validate_chat_completions, h]
  · intro cfg o
    refine ⟨?_, ?_, ?_, ?_, ?_, ?_⟩
    · cases o with
      | status c =>
          by_cases h200 : c = 200
          · subst h200
            simp [MG.validate_chat_completions]
          · simp [MG.validate_chat_completions, h200]
            split_ifs <;> simp_all
      | timeout => simp [MG.validate_chat_completions]
      | connectionError => simp [MG.validate_chat_completions]
    · simp [MG.validate_chat_completions]
    · simp [MG.validate_chat_completions]
    · simp [MG.validate_chat_completions]
    · simp [MG.validate_chat_completions]
    · simp [MG.validate_chat_completions]

/-- Witness for C4 applied at a concrete configuration and outcome. -/
theorem chat_completions_status_dispatch_witness :
    (APIM.validate_chat_completions apimSampleConfig (HttpOutcome.status 401)).2 =
      some ChatHandler.unauthorized ∧
    (APIM.validate_chat_completions apimSampleConfig (HttpOutcome.status 503)).1 = false :=
  ⟨(chat_completions_status_dispatch.1 apimSampleConfig (HttpOutcome.status 401)
      (by decide)).2.1,
   by
    have h := (chat_completions_status_dispatch.1 apimSampleConfig
      (HttpOutcome.status 503) (by decide)).1
    cases hr : (APIM.validate_chat_completions apimSampleConfig (HttpOutcome.status 503)).1
    · rfl
    · exact absurd (h.mp hr) (by decide)⟩

/-! ## C8: static model existence -/

/-- C8: with a non-empty static model list and a deployment name, the
existence stage succeeds iff some `staticModels` entry has a `name` equal
to the deployment name; on failure it lists the names of all configured
static models (missing names rendered as `Unknown`). -/
theorem static_model_existence :
    (∀ (cfg : APIMConfig) (n : String),
        cfg.deployment_name = some n →
        cfg.static_models ≠ [] →
        (((APIM.validate_static_model_exists cfg).1 = true ↔
            ∃ m ∈ cfg.static_models, m.name = some n) ∧
         ((APIM.validate_static_model_exists cfg).1 = false →
            (APIM.validate_static_model_exists cfg).2 =
              cfg.static_models.map (fun m => m.name.getD "Unknown")))) ∧
    (∀ cfg : MGConfig,
        cfg.static_models ≠ [] →
        (((MG.validate_static_model_exists cfg).1 = true ↔
            ∃ m ∈ cfg.static_models, m.name = some cfg.deployment_name) ∧
         ((MG.validate_static_model_exists cfg).1 = false →
            (MG.validate_static_model_exists cfg).2 =
              cfg.static_models.map (fun m => m.name.getD "Unknown")))) := by
  constructor
  · intro cfg n hn hne
    have hni : cfg.static_models.isEmpty = false := by
      simpa [List.isEmpty_iff] using hne
    cases hA : cfg.static_models.any (fun m => m.name == cfg.deployment_name) with
    | true =>
        constructor
        · simp only [APIM.validate_static_model_exists, hni, hA]
          simp only [List.any_eq_true, beq_iff_eq, hn] at hA
          simpa using hA
        · intro hfalse
          simp [APIM.validate_static_model_exists, hni, hA] at hfalse
    | false =>
        constructor
        · simp only [APIM.validate_static_model_exists, hni, hA]
          simp only [Bool.false_eq_true, if_false, false_iff]
          intro hex
          obtain ⟨m, hm, hmn⟩ := hex
          have hT : cfg.static_models.any (fun m => m.name == cfg.deployment_name) = true :=
            List.any_eq_true.mpr ⟨m, hm, by simp [hmn, hn]⟩
          simp [hA] at hT
        · intro _
          simp [APIM.validate_static_model_exists, hni, hA]
  · intro cfg _
    cases hA : cfg.static_models.any (fun m => m.name == some cfg.deployment_name) with
    | true =>
        constructor
        · simp only [MG.validate_static_model_exists, hA]
          simp only [List.any_eq_true, beq_iff_eq] at hA
          simpa using hA
        · intro hfalse
          simp [MG.validate_static_model_exists, hA] at hfalse
    | false =>
        constructor
        · simp only [MG.validate_static_model_exists, hA]
          simp only [Bool.false_eq_true, if_false, false_iff]
          intro hex
          obtain ⟨m, hm, hmn⟩ := hex
          have hT : cfg.static_models.any (fun m => m.name == some cfg.deployment_name) = true :=
            List.any_eq_true.mpr ⟨m, hm, by simp [hmn]⟩
          simp [hA] at hT
        · intro _
          simp [MG.validate_static_model_exists, hA]

/-- Witness for C8 at a concrete configuration where the lookup succeeds. -/
theorem static_model_existence_witness :
    (APIM.validate_static_model_exists apimSampleConfig).1 = true :=
  (static_model_existence.1 apimSampleConfig "gpt-4o" rfl (by decide)).1.mpr
    ⟨{ name := some "gpt-4o" }, by decide, rfl⟩

/-! ## C6: cross-validator agreement on the chat request -/

/-- C6 counterexample: on a target URL ending in a slash the two
validators build different chat-completions URLs, although the
configurations agree on target URL, deployment name, deployment-in-path
flag and inference API version. -/
theorem cross_validator_chat_url_counterexample :
    apimSlashConfig.target_url = mgSlashConfig.target_url ∧
    apimSlashConfig.deployment_name = some mgSlashConfig.deployment_name ∧
    apimSlashConfig.deployment_in_path = mgSlashConfig.deployment_in_path ∧
    apimSlashConfig.inference_api_version.getD "" = mgSlashConfig.inference_api_version ∧
    APIM.build_chat_completions_url apimSlashConfig ≠
      MG.build_chat_completions_url mgSlashConfig := by
  decide

/-- C6 amended: if additionally the shared target URL has no trailing
slash (the ModelGateway script strips trailing slashes, the APIM script
does not), the two validators build the same chat-completions URL, and
their request bodies agree on the `model` field and message roles — i.e.
they are equal up to the fixed test-message text. -/
theorem cross_validator_chat_request_agreement :
    ∀ (a : APIMConfig) (m : MGConfig),
      a.target_url = m.target_url →
      rstripSlashes m.target_url = m.target_url →
      a.deployment_name = some m.deployment_name →
      a.deployment_in_path = m.deployment_in_path →
      a.inference_api_version.getD "" = m.inference_api_version →
      APIM.build_chat_completions_url a = MG.build_chat_completions_url m ∧
      (APIM.build_chat_request_body a).model = (MG.build_request_body m).model ∧
      (APIM.build_chat_request_body a).messages.map ChatMessage.role =
        (MG.build_request_body m).messages.map ChatMessage.role := by
  intro a m ht hs hd hp hv
  refine ⟨?_, ?_, ?_⟩
  · cases hv2 : a.inference_api_version with
    | none =>
        have hm : m.inference_api_version = "" := by
          rw [← hv, hv2]
          rfl
        cases hp2 : a.deployment_in_path <;>
          simp [APIM.build_chat_completions_url, MG.build_chat_completions_url,
            hv2, hm, hd, hp2, ← hp, ht, hs, pyStrOpt, String.append_assoc]
    | some v =>
        have hm : m.inference_api_version = v := by
          rw [← hv, hv2]
          rfl
        by_cases hv0 : v = "" <;>
          cases hp2 : a.deployment_in_path <;>
            simp [APIM.build_chat_completions_url, MG.build_chat_completions_url,
              hv2, hm, hv0, hd, hp2, ← hp, ht, hs, pyStrOpt, String.append_assoc]
  · cases hp2 : a.deployment_in_path <;>
      simp [APIM.build_chat_request_body, MG.build_request_body, hd, hp2, ← hp]
  · rfl

/-- Witness for C6 applied at agreeing slash-free configurations. -/
theorem cross_validator_chat_request_agreement_witness :
    APIM.build_chat_completions_url apimSampleConfig =
      MG.build_chat_completions_url mgSampleConfig ∧
    (APIM.build_chat_request_body apimSampleConfig).model =
      (MG.build_request_body mgSampleConfig).model := by
  have h := cross_validator_chat_request_agreement apimSampleConfig mgSampleConfig
    rfl (by decide) rfl rfl rfl
  exact ⟨h.1, h.2.1⟩

/-! ## C7: dynamic-discovery probe URLs -/

theorem apim_test_get_trace (cfg : APIMConfig) (md : ModelDiscovery)
    (models : List String) (gr : GetModelResponse) (name : String)
    (hn : cfg.deployment_name = some name) (hne : name ≠ "") :
    ((APIM.test_get_model_endpoint cfg md models gr).2 = [] ∨
     (APIM.test_get_model_endpoint cfg md models gr).2 =
       [cfg.target_url ++ pyReplace md.getModelEndpoint "{deploymentName}" name ++
         cfg.deploymentQuery]) ∧
    ((APIM.test_get_model_endpoint cfg md models gr).1 = true →
     (APIM.test_get_model_endpoint cfg md models gr).2 =
       [cfg.target_url ++ pyReplace md.getModelEndpoint "{deploymentName}" name ++
         cfg.deploymentQuery]) := by
  simp only [APIM.test_get_model_endpoint, hn]
  split_ifs <;> simp_all

theorem mg_test_list_trace (cfg : MGConfig) (lr : ListModelsResponse)
    (base : String) :
    (MG.test_list_models_endpoint cfg lr base).2 =
      [base ++ cfg.list_models_endpoint ++ cfg.deploymentQuery] := by
  simp only [MG.test_list_models_endpoint]
  split_ifs <;> rfl

theorem mg_test_get_trace (cfg : MGConfig) (gr : GetModelResponse)
    (base : String) :
    ((MG.test_get_model_endpoint cfg gr base).2 = [] ∨
     (MG.test_get_model_endpoint cfg gr base).2 =
       [base ++ pyReplace cfg.get_model_endpoint "{deploymentName}" cfg.deployment_name ++
         cfg.deploymentQuery]) ∧
    ((MG.test_get_model_endpoint cfg gr base).1 = true →
     (MG.test_get_model_endpoint cfg gr base).2 =
       [base ++ pyReplace cfg.get_model_endpoint "{deploymentName}" cfg.deployment_name ++
         cfg.deploymentQuery]) := by
  simp only [MG.test_get_model_endpoint]
  split_ifs <;> simp_all

/-- C7 counterexample, refuting the claim as stated in two respects: the
APIM discovery stage probes only one URL when the list-models endpoint
answers 401, and the ModelGateway list-models URL is built on the target
URL with trailing slashes stripped, not on the target URL itself. -/
theorem dynamic_discovery_probe_counterexample :
    (APIM.validate_dynamic_discovery apimDynConfig
        { status := 401, isJson := true, models := [] }
        { status := 200, isJson := true, bodyOk := true }).2.length = 1 ∧
    (MG.validate_dynamic_discovery mgDynSlashConfig
        { status := 200, isJson := true, models := ["gpt-4o"] }
        { status := 200, isJson := true, bodyOk := true }).2 ≠
      [mgDynSlashConfig.target_url ++ mgDynSlashConfig.list_models_endpoint,
       mgDynSlashConfig.target_url ++
         pyReplace mgDynSlashConfig.get_model_endpoint "{deploymentName}"
           mgDynSlashConfig.deployment_name] := by
  decide

/-- C7 amended: a dynamic-discovery run probes at most two URLs, in
order: first the list-models URL (the target URL — for the ModelGateway
script, stripped of trailing slashes — concatenated with
`listModelsEndpoint` and the `?api-version=` query iff a deployment API
version is configured), then, only when the list probe and its checks
succeed, the get-model URL (likewise, with `{deploymentName}` replaced by
the deployment name); whenever the stage succeeds with a configured
deployment name, exactly those two URLs were probed. -/
theorem dynamic_discovery_probe_urls :
    (∀ (cfg : APIMConfig) (md : ModelDiscovery) (name : String)
        (lr : ListModelsResponse) (gr : GetModelResponse),
        cfg.model_discovery = some md →
        cfg.deployment_name = some name →
        name ≠ "" →
        (((APIM.validate_dynamic_discovery cfg lr gr).2 = [] ∨
          (APIM.validate_dynamic_discovery cfg lr gr).2 =
            [cfg.target_url ++ md.listModelsEndpoint ++ cfg.deploymentQuery] ∨
          (APIM.validate_dynamic_discovery cfg lr gr).2 =
            [cfg.target_url ++ md.listModelsEndpoint ++ cfg.deploymentQuery,
             cfg.target_url ++ pyReplace md.getModelEndpoint "{deploymentName}" name ++
               cfg.deploymentQuery]) ∧
         ((APIM.validate_dynamic_discovery cfg lr gr).1 = true →
          (APIM.validate_dynamic_discovery cfg lr gr).2 =
            [cfg.target_url ++ md.listModelsEndpoint ++ cfg.deploymentQuery,
             cfg.target_url ++ pyReplace md.getModelEndpoint "{deploymentName}" name ++
               cfg.deploymentQuery]))) ∧
    (∀ (cfg : MGConfig) (lr : ListModelsResponse) (gr : GetModelResponse),
        cfg.hasDynamic = true →
        (((MG.validate_dynamic_discovery cfg lr gr).2 =
            [rstripSlashes cfg.target_url ++ cfg.list_models_endpoint ++
              cfg.deploymentQuery] ∨
          (MG.validate_dynamic_discovery cfg lr gr).2 =
            [rstripSlashes cfg.target_url ++ cfg.list_models_endpoint ++
              cfg.deploymentQuery,
             rstripSlashes cfg.target_url ++
               pyReplace cfg.get_model_endpoint "{deploymentName}" cfg.deployment_name ++
               cfg.deploymentQuery]) ∧
         ((MG.validate_dynamic_discovery cfg lr gr).1 = true →
          (MG.validate_dynamic_discovery cfg lr gr).2 =
            [rstripSlashes cfg.target_url ++ cfg.list_models_endpoint ++
              cfg.deploymentQuery,
             rstripSlashes cfg.target_url ++
               pyReplace cfg.get_model_endpoint "{deploymentName}" cfg.deployment_name ++
               cfg.deploymentQuery]))) := by
  constructor
  · intro cfg md name lr gr hmd hn hne
    have htr : strTruthy cfg.deployment_name = true := by simp [strTruthy, hn, hne]
    have hget := apim_test_get_trace cfg md lr.models gr name hn hne
    simp only [APIM.validate_dynamic_discovery, hmd, htr, if_true]
    split_ifs <;> simp_all
  · intro cfg lr gr hdyn
    have h1 := mg_test_list_trace cfg lr (rstripSlashes cfg.target_url)
    have h2 := mg_test_get_trace cfg gr (rstripSlashes cfg.target_url)
    simp only [MG.validate_dynamic_discovery, hdyn, Bool.not_true, Bool.false_eq_true,
      if_false]
    cases hr : (MG.test_list_models_endpoint cfg lr (rstripSlashes cfg.target_url)).1 with
    | false => simp_all
    | true =>
        simp only [hr, Bool.not_true, Bool.false_eq_true, if_false]
        constructor
        · rcases h2.1 with h | h
          · left
            simp [h1, h]
          · right
            simp [h1, h]
        · intro hres
          simp [h1, h2.2 hres]

/-- Witness for C7: a fully successful APIM dynamic-discovery run probes
exactly the two documented URLs. -/
theorem dynamic_discovery_probe_urls_witness :
    (APIM.validate_dynamic_discovery apimDynConfig
        { status := 200, isJson := true, models := ["gpt-4o"] }
        { status := 200, isJson := true, bodyOk := true }).2 =
      ["https://apim.example.com/openai/deployments?api-version=2023-05-01",
       "https://apim.example.com/openai/deployments/gpt-4o?api-version=2023-05-01"] := by
  have h := (dynamic_discovery_probe_urls.1 apimDynConfig apimDynDiscovery "gpt-4o"
      { status := 200, isJson := true, models := ["gpt-4o"] }
      { status := 200, isJson := true, bodyOk := true } rfl rfl (by decide)).2 (by decide)
  exact h.trans (by decide)

/-! ## C1: four-stage orchestrators -/

/-- C1: both orchestrators run the four stages in the fixed order
parameter validation → discovery validation → model validation → chat
completions, stop at the first failing stage, and return `True` iff all
four stages succeed.  (The ModelGateway orchestrator first validates the
authentication configuration; if that fails it returns `False` with no
stage executed, so all-four-success still characterises `True`.) -/
theorem orchestrator_four_stage_sequence :
    (∀ r : Stage → Bool,
        ((APIM.run_validation r).1 =
          (r Stage.params && r Stage.discovery && r Stage.model && r Stage.chat)) ∧
        ((APIM.run_validation r).1 = true →
          (APIM.run_validation r).2 =
            [Stage.params, Stage.discovery, Stage.model, Stage.chat]) ∧
        (r Stage.params = false → (APIM.run_validation r).2 = [Stage.params]) ∧
        (r Stage.params = true → r Stage.discovery = false →
          (APIM.run_validation r).2 = [Stage.params, Stage.discovery]) ∧
        (r Stage.params = true → r Stage.discovery = true → r Stage.model = false →
          (APIM.run_validation r).2 = [Stage.params, Stage.discovery, Stage.model]) ∧
        (r Stage.params = true → r Stage.discovery = true → r Stage.model = true →
          (APIM.run_validation r).2 =
            [Stage.params, Stage.discovery, Stage.model, Stage.chat])) ∧
    (∀ (auth : Bool) (r : Stage → Bool),
        ((MG.validate_connection auth r).1 =
          (auth && r Stage.params && r Stage.discovery && r Stage.model &&
            r Stage.chat)) ∧
        (auth = false → (MG.validate_connection auth r).2 = []) ∧
        (auth = true →
          (MG.validate_connection auth r).2 = (APIM.run_validation r).2)) := by
  constructor
  · intro r
    refine ⟨?_, ?_, ?_, ?_, ?_, ?_⟩ <;>
      cases h1 : r Stage.params <;> cases h2 : r Stage.discovery <;>
        cases h3 : r Stage.model <;> cases h4 : r Stage.chat <;>
          simp [APIM.run_validation, h1, h2, h3, h4]
  · intro auth r
    refine ⟨?_, ?_, ?_⟩ <;>
      cases auth <;> cases h1 : r Stage.params <;> cases h2 : r Stage.discovery <;>
        cases h3 : r Stage.model <;> cases h4 : r Stage.chat <;>
          simp [MG.validate_connection, APIM.run_validation, h1, h2, h3, h4]

/-- Witness for C1: with the discovery stage failing, the APIM run stops
after the second stage and the ModelGateway run with failed auth executes
no stage. -/
theorem orchestrator_four_stage_sequence_witness :
    (APIM.run_validation stageResultsSample).2 = [Stage.params, Stage.discovery] ∧
    (MG.validate_connection false stageResultsSample).2 = [] :=
  ⟨(orchestrator_four_stage_sequence.1 stageResultsSample).2.2.2.1 rfl rfl,
   (orchestrator_four_stage_sequence.2 false stageResultsSample).2.1 rfl⟩

end FoundrySamples
